import Mathlib

/-
Shallow embedding of the Soroban contract in
src/contracts/hello-world/src/lib.rs (HelloContract).

Modelling choices:
* `Addr` stands for `soroban_sdk::Address` (opaque, compared only for
  equality) and Lean `String` stands for `soroban_sdk::String` with
  `len()` as `String.length`.
* The contract's storage (instance tier + persistent tier) is one
  record `Store`; `DataKey::Admin`, `ContadorSaludos`, `LimiteCaracteres`
  are the instance-tier fields, `UltimoSaludo(a)` and
  `ContadorPorUsuario(a)` the persistent-tier maps.
* `extend_ttl` calls are recorded in an append-only event log so that
  TTL-renewal claims can be stated; they have no other effect here.
* u32 arithmetic: `contador + 1` in the source is checked Rust
  arithmetic (overflow panics, and a panic in a Soroban contract traps
  the whole invocation, committing nothing).  A trapped call is
  modelled as the `none` outcome of `hello`, distinct from a typed
  `Err` result; the two typed error paths return the store unchanged.
-/

namespace HelloTiburona

/-- Opaque identity handle; only equality is used by the contract. -/
abbrev Addr := Nat

/-- The `Error` enum of lib.rs (lines 16-21).  Note there is no
`AlreadyInitialized` variant: the contract has exactly these four. -/
inductive Error where
  | nombreVacio
  | nombreMuyLargo
  | noAutorizado
  | noInicializado
deriving DecidableEq, Repr

/-- The `#[repr(u32)]` numeric code of each error. -/
def Error.code : Error → Nat
  | .nombreVacio => 1
  | .nombreMuyLargo => 2
  | .noAutorizado => 3
  | .noInicializado => 4

/-- Keys of the persistent (scoped) storage tier. -/
inductive PersistKey where
  | ultimoSaludo (a : Addr)
  | contadorPorUsuario (a : Addr)
deriving DecidableEq, Repr

/-- TTL-renewal events, recorded in the order the contract issues them.
`extendInstance lo hi` is `storage().instance().extend_ttl(lo, hi)`;
`extendPersistent k lo hi` is
`storage().persistent().extend_ttl(&k, lo, hi)`. -/
inductive Event where
  | extendInstance (lo hi : Nat)
  | extendPersistent (k : PersistKey) (lo hi : Nat)
deriving DecidableEq, Repr

/-- The whole keyed store visible to the contract, plus the TTL log. -/
structure Store where
  admin : Option Addr
  contadorSaludos : Option Nat
  limiteCaracteres : Option Nat
  ultimoSaludo : Addr → Option String
  contadorPorUsuario : Addr → Option Nat
  log : List Event

/-- The store of a freshly deployed contract: every key absent. -/
def Store.empty : Store :=
  { admin := none
    contadorSaludos := none
    limiteCaracteres := none
    ultimoSaludo := fun _ => none
    contadorPorUsuario := fun _ => none
    log := [] }

/-- One past the largest u32 value. -/
def U32LIM : Nat := 4294967296

/-- Checked u32 addition: `none` models the overflow panic/trap. -/
def checkedAddU32 (a b : Nat) : Option Nat :=
  if a + b < U32LIM then some (a + b) else none

/-- `get_contador` (lib.rs 133-138): instance read, 0 when absent. -/
def get_contador (s : Store) : Nat :=
  (s.contadorSaludos).getD 0

/-- `get_ultimo_saludo` (lib.rs 140-144): persistent read. -/
def get_ultimo_saludo (s : Store) (usuario : Addr) : Option String :=
  s.ultimoSaludo usuario

/-- `get_contador_usuario` (lib.rs 147-152): persistent read, 0 when
absent. -/
def get_contador_usuario (s : Store) (usuario : Addr) : Nat :=
  (s.contadorPorUsuario usuario).getD 0

/-- `initialize` (lib.rs 43-72).  If `Admin` is present it fails with
`Error::NoInicializado` (the source reuses that variant for the
already-initialized case); otherwise it sets Admin, ContadorSaludos=0,
extends the instance TTL (100,100) and sets LimiteCaracteres=32. -/
def initContract (s : Store) (admin : Addr) : Except Error Unit × Store :=
  if (s.admin).isSome then
    (Except.error Error.noInicializado, s)
  else
    let s1 : Store := { s with admin := some admin }
    let s2 : Store := { s1 with contadorSaludos := some 0 }
    let s3 : Store := { s2 with log := s2.log ++ [Event.extendInstance 100 100] }
    let s4 : Store := { s3 with limiteCaracteres := some 32 }
    (Except.ok (), s4)

/-- `hello` (lib.rs 74-130).  Validates the name (empty, then length
against LimiteCaracteres with default 32), then increments the global
counter, increments the caller's per-user counter (absent = 0), stores
the name as UltimoSaludo, extends the TTL of the UltimoSaludo key and
of the instance tier, and returns the symbol "Hola".  `none` is the
overflow trap of a checked `+ 1`. -/
def hello (s : Store) (usuario : Addr) (nombre : String) :
    Option (Except Error String × Store) :=
  if nombre.length = 0 then
    some (Except.error Error.nombreVacio, s)
  else
    let limite : Nat := (s.limiteCaracteres).getD 32
    if nombre.length > limite then
      some (Except.error Error.nombreMuyLargo, s)
    else
      let contador : Nat := (s.contadorSaludos).getD 0
      match checkedAddU32 contador 1 with
      | none => none
      | some c1 =>
        let s1 : Store := { s with contadorSaludos := some c1 }
        let contadorUsuario : Nat := get_contador_usuario s1 usuario
        match checkedAddU32 contadorUsuario 1 with
        | none => none
        | some cu1 =>
          let s2 : Store := { s1 with contadorPorUsuario :=
            fun a => if a = usuario then some cu1 else s1.contadorPorUsuario a }
          let s3 : Store := { s2 with ultimoSaludo :=
            fun a => if a = usuario then some nombre else s2.ultimoSaludo a }
          let s4 : Store := { s3 with log :=
            s3.log ++ [Event.extendPersistent (PersistKey.ultimoSaludo usuario) 100 100] }
          let s5 : Store := { s4 with log :=
            s4.log ++ [Event.extendInstance 100 100] }
          some (Except.ok "Hola", s5)

/-- `reset_contador` (lib.rs 155-173): admin-gated reset of the global
counter. -/
def reset_contador (s : Store) (caller : Addr) : Except Error Unit × Store :=
  match s.admin with
  | none => (Except.error Error.noInicializado, s)
  | some admin =>
    if caller ≠ admin then
      (Except.error Error.noAutorizado, s)
    else
      (Except.ok (), { s with contadorSaludos := some 0 })

/-- `transfer_admin` (lib.rs 176-196): admin-gated ownership change. -/
def transfer_admin (s : Store) (caller : Addr) (nuevoAdmin : Addr) :
    Except Error Unit × Store :=
  match s.admin with
  | none => (Except.error Error.noInicializado, s)
  | some admin =>
    if caller ≠ admin then
      (Except.error Error.noAutorizado, s)
    else
      (Except.ok (), { s with admin := some nuevoAdmin })

/-- `set_limite` (lib.rs 199-221): admin-gated limit change; any u32
value is accepted. -/
def set_limite (s : Store) (caller : Addr) (limite : Nat) :
    Except Error Unit × Store :=
  match s.admin with
  | none => (Except.error Error.noInicializado, s)
  | some admin =>
    if caller ≠ admin then
      (Except.error Error.noAutorizado, s)
    else
      (Except.ok (), { s with limiteCaracteres := some limite })

/-- A sequence of `hello` calls, all of which must succeed (return
`Ok`); any typed error or trap aborts the run. -/
def helloRun : Store → List (Addr × String) → Option Store
  | s, [] => some s
  | s, (u, n) :: rest =>
    match hello s u n with
    | some (Except.ok _, s1) => helloRun s1 rest
    | _ => none

/-- The store a successful `hello s u n` leaves behind (derived from
the write sequence of lib.rs 96-126). -/
def helloSucc (s : Store) (u : Addr) (n : String) : Store :=
  { admin := s.admin
    contadorSaludos := some ((s.contadorSaludos).getD 0 + 1)
    limiteCaracteres := s.limiteCaracteres
    ultimoSaludo := fun a => if a = u then some n else s.ultimoSaludo a
    contadorPorUsuario := fun a =>
      if a = u then some ((s.contadorPorUsuario u).getD 0 + 1)
      else s.contadorPorUsuario a
    log := s.log ++ [Event.extendPersistent (PersistKey.ultimoSaludo u) 100 100,
                     Event.extendInstance 100 100] }

/-- Does this event renew the TTL of `ContadorPorUsuario(u)`? -/
def renewsContadorPorUsuario (u : Addr) : Event → Bool
  | Event.extendPersistent (PersistKey.contadorPorUsuario a) _ _ => a = u
  | _ => false

/-- Full characterization of a successful `hello`: the token is "Hola"
and the resulting store is the old one with the global counter bumped,
the caller's per-user counter bumped (absent = 0), the caller's last
greeting overwritten, and exactly two TTL renewals appended
(UltimoSaludo key, then instance tier); the name passed both shape
checks. -/
theorem hello_ok_elim (s : Store) (u : Addr) (n tok : String) (s' : Store)
    (h : hello s u n = some (Except.ok tok, s')) :
    tok = "Hola" ∧
    s'.admin = s.admin ∧
    s'.contadorSaludos = some ((s.contadorSaludos).getD 0 + 1) ∧
    s'.limiteCaracteres = s.limiteCaracteres ∧
    (∀ a, s'.contadorPorUsuario a =
      if a = u then some ((s.contadorPorUsuario u).getD 0 + 1)
      else s.contadorPorUsuario a) ∧
    (∀ a, s'.ultimoSaludo a = if a = u then some n else s.ultimoSaludo a) ∧
    s'.log = s.log ++ [Event.extendPersistent (PersistKey.ultimoSaludo u) 100 100,
                       Event.extendInstance 100 100] ∧
    n.length ≠ 0 ∧ n.length ≤ (s.limiteCaracteres).getD 32 := by
  by_cases h0 : n.length = 0
  · simp [hello, h0] at h
  · by_cases h1 : n.length > (s.limiteCaracteres).getD 32
    · simp [hello, h0, h1] at h
    · by_cases h2 : (s.contadorSaludos).getD 0 + 1 < U32LIM
      · by_cases h3 : (s.contadorPorUsuario u).getD 0 + 1 < U32LIM
        · simp [hello, h0, h1, h2, h3, checkedAddU32, get_contador_usuario] at h
          obtain ⟨htok, hs⟩ := h
          subst hs
          subst htok
          refine ⟨rfl, rfl, rfl, rfl, fun a => rfl, fun a => rfl, rfl, h0, not_lt.mp h1⟩
        · simp [hello, h0, h1, h2, h3, checkedAddU32, get_contador_usuario] at h
      · simp [hello, h0, h1, h2, checkedAddU32] at h

/-- A `hello` that returns a typed error leaves the store untouched,
and the error is one of the two input-shape errors. -/
theorem hello_err_elim (s : Store) (u : Addr) (n : String) (e : Error) (s' : Store)
    (h : hello s u n = some (Except.error e, s')) :
    s' = s ∧ (e = Error.nombreVacio ∨ e = Error.nombreMuyLargo) := by
  by_cases h0 : n.length = 0
  · simp [hello, h0] at h
    exact ⟨h.2.symm, Or.inl h.1.symm⟩
  · by_cases h1 : n.length > (s.limiteCaracteres).getD 32
    · simp [hello, h0, h1] at h
      exact ⟨h.2.symm, Or.inr h.1.symm⟩
    · by_cases h2 : (s.contadorSaludos).getD 0 + 1 < U32LIM
      · by_cases h3 : (s.contadorPorUsuario u).getD 0 + 1 < U32LIM
        · simp [hello, h0, h1, h2, h3, checkedAddU32, get_contador_usuario] at h
        · simp [hello, h0, h1, h2, h3, checkedAddU32, get_contador_usuario] at h
      · simp [hello, h0, h1, h2, checkedAddU32] at h

/-- A name that passes both shape checks makes `hello` succeed,
provided neither u32 counter increment overflows. -/
theorem hello_ok_intro (s : Store) (u : Addr) (n : String)
    (h0 : n.length ≠ 0) (h1 : n.length ≤ (s.limiteCaracteres).getD 32)
    (h2 : (s.contadorSaludos).getD 0 + 1 < U32LIM)
    (h3 : (s.contadorPorUsuario u).getD 0 + 1 < U32LIM) :
    hello s u n = some (Except.ok "Hola", helloSucc s u n) := by
  have h1' : ¬ (n.length > (s.limiteCaracteres).getD 32) := not_lt.mpr h1
  simp [hello, h0, h1', h2, h3, checkedAddU32, get_contador_usuario, helloSucc]

/-- Each successful `hello` of a run adds exactly 1 to the global
counter. -/
theorem helloRun_contador : ∀ (calls : List (Addr × String)) (s s' : Store),
    helloRun s calls = some s' →
    get_contador s' = get_contador s + calls.length := by
  intro calls
  induction calls with
  | nil =>
    intro s s' h
    simp [helloRun] at h
    subst h
    simp
  | cons c rest ih =>
    intro s s' h
    obtain ⟨u, n⟩ := c
    simp only [helloRun] at h
    split at h
    · rename_i tok s1 heq
      have hc := (hello_ok_elim s u n tok s1 heq).2.2.1
      have hstep : get_contador s1 = get_contador s + 1 := by
        simp [get_contador, hc]
      rw [ih s1 s' h, hstep, List.length_cons]
      omega
    · exact absurd h (by simp)

/-- C1 (amended): once Admin is present, `initialize` fails with the
NotInitialized error — `Error::NoInicializado`, code 4, which the
contract reuses to signal "already initialized"; there is no separate
`AlreadyInitialized` variant — and the store (so GreetingCounter,
AdminIdentity and CharacterLimit in particular) is left unchanged;
from an uninitialized store `initialize` succeeds, and afterwards any
further call fails without changing the store, so it succeeds exactly
once. -/
theorem init_once (s : Store) (a a2 : Addr) :
    ((s.admin).isSome →
      initContract s a = (Except.error Error.noInicializado, s)) ∧
    (s.admin = none →
      (initContract s a).1 = Except.ok () ∧
      ((initContract s a).2).admin = some a ∧
      initContract (initContract s a).2 a2 =
        (Except.error Error.noInicializado, (initContract s a).2)) := by
  constructor
  · intro h
    simp [initContract, h]
  · intro h
    simp [initContract, h]

/-- C1 witness: both branches of `init_once` at concrete stores. -/
theorem init_once_witness :
    initContract { Store.empty with admin := some 1 } 2 =
      (Except.error Error.noInicializado, { Store.empty with admin := some 1 }) ∧
    (initContract Store.empty 1).1 = Except.ok () :=
  ⟨(init_once { Store.empty with admin := some 1 } 2 3).1 rfl,
   ((init_once Store.empty 1 3).2 rfl).1⟩

/-- C1 counterexample to the claim as stated: re-initializing an
already-initialized store returns `Error.noInicializado` — the very
error value (code 4) that uninitialized admin operations such as
`reset_contador` return — not a distinct AlreadyInitialized error,
which does not exist in the contract's error enum. -/
theorem init_already_counterexample :
    (initContract { Store.empty with admin := some 1 } 2).1 =
      Except.error Error.noInicializado ∧
    (reset_contador Store.empty 1).1 = Except.error Error.noInicializado ∧
    Error.noInicializado.code = 4 :=
  ⟨rfl, rfl, rfl⟩

/-- C2: starting from a store whose global counter reads 0, a run of N
successful `hello` calls (any mix of callers, no other operation in
between) leaves `get_contador` equal to N. -/
theorem counter_monotonic (s s' : Store) (calls : List (Addr × String))
    (h0 : get_contador s = 0) (h : helloRun s calls = some s') :
    get_contador s' = calls.length := by
  rw [helloRun_contador calls s s' h, h0, Nat.zero_add]

/-- C2 witness: two successful hellos by different callers from the
empty store give counter 2. -/
theorem counter_monotonic_witness :
    get_contador ((helloRun Store.empty [(0, "Ana"), (1, "Bo")]).getD Store.empty) = 2 :=
  counter_monotonic Store.empty _ [(0, "Ana"), (1, "Bo")] rfl rfl

/-- C3: a successful `hello caller name` returns the fixed token
"Hola", increments the global counter by 1, increments the caller's
per-identity counter by 1 (absence read as 0, so a first-timer ends at
1), and overwrites the caller's last greeting with `name`. -/
theorem hello_success_effects (s : Store) (u : Addr) (n tok : String) (s' : Store)
    (h : hello s u n = some (Except.ok tok, s')) :
    tok = "Hola" ∧
    get_contador s' = get_contador s + 1 ∧
    get_contador_usuario s' u = get_contador_usuario s u + 1 ∧
    get_ultimo_saludo s' u = some n := by
  obtain ⟨ht, _, hc, _, hcu, hus, _, _, _⟩ := hello_ok_elim s u n tok s' h
  refine ⟨ht, ?_, ?_, ?_⟩
  · simp [get_contador, hc]
  · simp [get_contador_usuario, hcu]
  · simp [get_ultimo_saludo, hus]

/-- C3 witness: `hello` at the empty store by caller 0 with "Ana". -/
theorem hello_success_effects_witness :
    "Hola" = "Hola" ∧
    get_contador (((hello Store.empty 0 "Ana").getD (Except.ok "", Store.empty)).2) =
      get_contador Store.empty + 1 ∧
    get_contador_usuario (((hello Store.empty 0 "Ana").getD (Except.ok "", Store.empty)).2) 0 =
      get_contador_usuario Store.empty 0 + 1 ∧
    get_ultimo_saludo (((hello Store.empty 0 "Ana").getD (Except.ok "", Store.empty)).2) 0 =
      some "Ana" :=
  hello_success_effects Store.empty 0 "Ana" "Hola"
    (((hello Store.empty 0 "Ana").getD (Except.ok "", Store.empty)).2) rfl

/-- C4: with no admin recorded, `reset_contador`, `transfer_admin` and
`set_limite` all fail with NoInicializado; with an admin recorded,
any different caller gets NoAutorizado; in both cases the store is
returned unchanged. -/
theorem auth_enforcement (s : Store) (caller nuevoAdmin : Addr) (lim : Nat) :
    (s.admin = none →
      reset_contador s caller = (Except.error Error.noInicializado, s) ∧
      transfer_admin s caller nuevoAdmin = (Except.error Error.noInicializado, s) ∧
      set_limite s caller lim = (Except.error Error.noInicializado, s)) ∧
    (∀ adm, s.admin = some adm → caller ≠ adm →
      reset_contador s caller = (Except.error Error.noAutorizado, s) ∧
      transfer_admin s caller nuevoAdmin = (Except.error Error.noAutorizado, s) ∧
      set_limite s caller lim = (Except.error Error.noAutorizado, s)) := by
  constructor
  · intro h
    simp [reset_contador, transfer_admin, set_limite, h]
  · intro adm h hne
    simp [reset_contador, transfer_admin, set_limite, h, hne]

/-- C4 witness: uninitialized reset fails NoInicializado; non-admin
reset and set_limite fail NoAutorizado, store unchanged. -/
theorem auth_enforcement_witness :
    reset_contador Store.empty 7 = (Except.error Error.noInicializado, Store.empty) ∧
    reset_contador { Store.empty with admin := some 5 } 7 =
      (Except.error Error.noAutorizado, { Store.empty with admin := some 5 }) ∧
    set_limite { Store.empty with admin := some 5 } 7 9 =
      (Except.error Error.noAutorizado, { Store.empty with admin := some 5 }) :=
  ⟨((auth_enforcement Store.empty 7 9 11).1 rfl).1,
   ((auth_enforcement { Store.empty with admin := some 5 } 7 9 11).2 5 rfl (by decide)).1,
   ((auth_enforcement { Store.empty with admin := some 5 } 7 9 11).2 5 rfl (by decide)).2.2⟩

/-- C5: with effective character limit L (stored, or the default 32
when unset), a non-empty name of length exactly L succeeds — given
that neither u32 counter increment overflows, which would trap the
call — and a name of length L+1 fails with NombreMuyLargo, store
unchanged. -/
theorem limit_boundary (s : Store) (u : Addr) (L : Nat) (n1 n2 : String)
    (hL : s.limiteCaracteres = some L ∨ (s.limiteCaracteres = none ∧ L = 32))
    (hn1 : n1.length = L) (hne : n1.length ≠ 0)
    (hn2 : n2.length = L + 1)
    (hc : (s.contadorSaludos).getD 0 + 1 < U32LIM)
    (hcu : (s.contadorPorUsuario u).getD 0 + 1 < U32LIM) :
    hello s u n1 = some (Except.ok "Hola", helloSucc s u n1) ∧
    hello s u n2 = some (Except.error Error.nombreMuyLargo, s) := by
  have hLe : (s.limiteCaracteres).getD 32 = L := by
    rcases hL with h | ⟨h, h32⟩
    · simp [h]
    · simp [h, h32]
  constructor
  · exact hello_ok_intro s u n1 hne (by rw [hn1, hLe]) hc hcu
  · have h0 : n2.length ≠ 0 := by omega
    have h1 : n2.length > (s.limiteCaracteres).getD 32 := by rw [hn2, hLe]; omega
    simp [hello, h0, h1]

/-- C5 witness: with stored limit 3, "Ana" (length 3) succeeds and
"Anna" (length 4) fails with NombreMuyLargo. -/
theorem limit_boundary_witness :
    hello { Store.empty with limiteCaracteres := some 3 } 0 "Ana" =
      some (Except.ok "Hola", helloSucc { Store.empty with limiteCaracteres := some 3 } 0 "Ana") ∧
    hello { Store.empty with limiteCaracteres := some 3 } 0 "Anna" =
      some (Except.error Error.nombreMuyLargo, { Store.empty with limiteCaracteres := some 3 }) :=
  limit_boundary { Store.empty with limiteCaracteres := some 3 } 0 3 "Ana" "Anna"
    (Or.inl rfl) rfl (by decide) rfl (by decide) (by decide)

/-- C6: whenever `hello` returns a typed error the store is identical
to the one before the call, and the error is one of the two
input-shape errors (EmptyName, NameTooLong): every check runs before
the first write. -/
theorem rejected_hello_no_write (s : Store) (u : Addr) (n : String) (e : Error) (s' : Store)
    (h : hello s u n = some (Except.error e, s')) :
    s' = s ∧ (e = Error.nombreVacio ∨ e = Error.nombreMuyLargo) :=
  hello_err_elim s u n e s' h

/-- C6 witness: `hello` with the empty name fails with NombreVacio and
returns the store unchanged. -/
theorem rejected_hello_no_write_witness :
    Store.empty = Store.empty ∧
    (Error.nombreVacio = Error.nombreVacio ∨ Error.nombreVacio = Error.nombreMuyLargo) :=
  rejected_hello_no_write Store.empty 0 "" Error.nombreVacio Store.empty rfl

/-- C7: called by the recorded admin, `reset_contador` succeeds, the
global counter reads 0 afterwards, and the per-identity counters, the
last greetings, the admin and the character limit are all unchanged. -/
theorem reset_scope (s : Store) (caller : Addr) (h : s.admin = some caller) :
    (reset_contador s caller).1 = Except.ok () ∧
    get_contador (reset_contador s caller).2 = 0 ∧
    (reset_contador s caller).2.contadorPorUsuario = s.contadorPorUsuario ∧
    (reset_contador s caller).2.ultimoSaludo = s.ultimoSaludo ∧
    (reset_contador s caller).2.admin = s.admin ∧
    (reset_contador s caller).2.limiteCaracteres = s.limiteCaracteres := by
  simp [reset_contador, h, get_contador]

/-- C7 witness: admin 4 resets a store it administers. -/
theorem reset_scope_witness :
    (reset_contador { Store.empty with admin := some 4 } 4).1 = Except.ok () ∧
    get_contador (reset_contador { Store.empty with admin := some 4 } 4).2 = 0 ∧
    (reset_contador { Store.empty with admin := some 4 } 4).2.contadorPorUsuario =
      ({ Store.empty with admin := some 4 } : Store).contadorPorUsuario ∧
    (reset_contador { Store.empty with admin := some 4 } 4).2.ultimoSaludo =
      ({ Store.empty with admin := some 4 } : Store).ultimoSaludo ∧
    (reset_contador { Store.empty with admin := some 4 } 4).2.admin =
      ({ Store.empty with admin := some 4 } : Store).admin ∧
    (reset_contador { Store.empty with admin := some 4 } 4).2.limiteCaracteres =
      ({ Store.empty with admin := some 4 } : Store).limiteCaracteres :=
  reset_scope { Store.empty with admin := some 4 } 4 rfl

/-- C8: a successful `hello` by caller b leaves the per-identity
counter and the last greeting of any other identity a unchanged. -/
theorem per_identity_isolation (s : Store) (a b : Addr) (n tok : String) (s' : Store)
    (hne : a ≠ b) (h : hello s b n = some (Except.ok tok, s')) :
    get_contador_usuario s' a = get_contador_usuario s a ∧
    get_ultimo_saludo s' a = get_ultimo_saludo s a := by
  obtain ⟨_, _, _, _, hcu, hus, _, _, _⟩ := hello_ok_elim s b n tok s' h
  constructor
  · simp [get_contador_usuario, hcu a, hne]
  · simp [get_ultimo_saludo, hus a, hne]

/-- C8 witness: caller 1 greeting leaves identity 0's records as they
were. -/
theorem per_identity_isolation_witness :
    get_contador_usuario (((hello Store.empty 1 "Bo").getD (Except.ok "", Store.empty)).2) 0 =
      get_contador_usuario Store.empty 0 ∧
    get_ultimo_saludo (((hello Store.empty 1 "Bo").getD (Except.ok "", Store.empty)).2) 0 =
      get_ultimo_saludo Store.empty 0 :=
  per_identity_isolation Store.empty 0 1 "Bo" "Hola"
    (((hello Store.empty 1 "Bo").getD (Except.ok "", Store.empty)).2) (by decide) rfl

/-- C9 (amended): a successful `hello` by identity u issues exactly two
TTL renewals — a per-key renewal of u's UltimoSaludo entry (100,100)
followed by an instance-tier renewal (100,100) — and issues no renewal
at all for u's ContadorPorUsuario entry. -/
theorem scoped_ttl_renewal (s : Store) (u : Addr) (n tok : String) (s' : Store)
    (h : hello s u n = some (Except.ok tok, s')) :
    s'.log = s.log ++ [Event.extendPersistent (PersistKey.ultimoSaludo u) 100 100,
                       Event.extendInstance 100 100] ∧
    s'.log.countP (renewsContadorPorUsuario u) =
      s.log.countP (renewsContadorPorUsuario u) := by
  obtain ⟨_, _, _, _, _, _, hlog, _, _⟩ := hello_ok_elim s u n tok s' h
  refine ⟨hlog, ?_⟩
  rw [hlog]
  simp [List.countP_append, renewsContadorPorUsuario]

/-- C9 witness: the two renewals of a concrete successful hello. -/
theorem scoped_ttl_renewal_witness :
    (((hello Store.empty 0 "Ana").getD (Except.ok "", Store.empty)).2).log =
      Store.empty.log ++ [Event.extendPersistent (PersistKey.ultimoSaludo 0) 100 100,
                          Event.extendInstance 100 100] ∧
    (((hello Store.empty 0 "Ana").getD (Except.ok "", Store.empty)).2).log.countP
        (renewsContadorPorUsuario 0) =
      Store.empty.log.countP (renewsContadorPorUsuario 0) :=
  scoped_ttl_renewal Store.empty 0 "Ana" "Hola"
    (((hello Store.empty 0 "Ana").getD (Except.ok "", Store.empty)).2) rfl

/-- C9 counterexample to the claim as stated: a concrete successful
hello by identity 0 issues exactly the UltimoSaludo-key renewal and
the instance-tier renewal; its ContadorPorUsuario entry receives zero
renewal calls, so it is not true that both scoped entries get their
own per-key renewal. -/
theorem scoped_ttl_counterexample :
    (hello Store.empty 0 "Ana").map (fun p => (p.1, p.2.log)) =
      some (Except.ok "Hola",
        [Event.extendPersistent (PersistKey.ultimoSaludo 0) 100 100,
         Event.extendInstance 100 100]) ∧
    (hello Store.empty 0 "Ana").map
        (fun p => p.2.log.countP (renewsContadorPorUsuario 0)) = some 0 :=
  ⟨rfl, rfl⟩

/-- C10: `hello` performs no initialization check: on a store with no
admin recorded (and the limit unset, as it must be when `initialize`
never ran), any non-empty name of length at most 32 succeeds with the
token "Hola" and all three writes — given that neither u32 counter
increment overflows, which would trap the call — and `hello` never
returns NoInicializado for any call whatsoever. -/
theorem hello_no_init_check (s s0 : Store) (u u0 : Addr) (n n0 : String)
    (r : Except Error String) (s0' : Store)
    (_hadm : s.admin = none) (hlim : s.limiteCaracteres = none)
    (hne : n.length ≠ 0) (hlen : n.length ≤ 32)
    (hc : (s.contadorSaludos).getD 0 + 1 < U32LIM)
    (hcu : (s.contadorPorUsuario u).getD 0 + 1 < U32LIM)
    (h0 : hello s0 u0 n0 = some (r, s0')) :
    hello s u n = some (Except.ok "Hola", helloSucc s u n) ∧
    get_contador (helloSucc s u n) = get_contador s + 1 ∧
    get_contador_usuario (helloSucc s u n) u = get_contador_usuario s u + 1 ∧
    get_ultimo_saludo (helloSucc s u n) u = some n ∧
    r ≠ Except.error Error.noInicializado := by
  have hlen' : n.length ≤ (s.limiteCaracteres).getD 32 := by rw [hlim]; simpa
  refine ⟨hello_ok_intro s u n hne hlen' hc hcu, ?_, ?_, ?_, ?_⟩
  · simp [get_contador, helloSucc]
  · simp [get_contador_usuario, helloSucc]
  · simp [get_ultimo_saludo, helloSucc]
  · intro hr
    subst hr
    obtain ⟨_, hd⟩ := hello_err_elim s0 u0 n0 Error.noInicializado s0' h0
    rcases hd with h1 | h1 <;> exact absurd h1 (by decide)

/-- C10 witness: hello on the never-initialized empty store succeeds
with all its effects. -/
theorem hello_no_init_check_witness :
    hello Store.empty 0 "Ana" = some (Except.ok "Hola", helloSucc Store.empty 0 "Ana") ∧
    get_contador (helloSucc Store.empty 0 "Ana") = get_contador Store.empty + 1 ∧
    get_contador_usuario (helloSucc Store.empty 0 "Ana") 0 =
      get_contador_usuario Store.empty 0 + 1 ∧
    get_ultimo_saludo (helloSucc Store.empty 0 "Ana") 0 = some "Ana" ∧
    (Except.ok "Hola" : Except Error String) ≠ Except.error Error.noInicializado :=
  hello_no_init_check Store.empty Store.empty 0 0 "Ana" "Ana"
    (Except.ok "Hola") (helloSucc Store.empty 0 "Ana")
    rfl rfl (by decide) (by decide) (by decide) (by decide) (by rfl)

end HelloTiburona
